import Mathlib

/-!
Verification of the Dobiss CAN light integration
(`custom_components/dobiss_can/light.py`).

The protocol core is the `DobissLight` entity: it caches an on/off state,
encodes SET commands and GET queries as CAN frames, and classifies the two
inbound reply frame kinds (set-acknowledgement `0x0002FF01`, query-reply
`0x01FDFF01`).  The shallow embedding below models the device record, the
constructor, the frame handler `on_can_message_received`, the fire-and-forget
`async_turn_on` / `async_turn_off`, and the locked query cycle `async_update`.

Modelling conventions:
* CAN frames (`can.Message`) are an arbitration id plus a payload byte list;
  the constant `is_extended_id=True` transport flag carries no protocol
  content and is omitted.
* Python byte indexing `msg.data[i]` is modelled with `List.get?`; on the
  well-formed frames of the protocol table both agree.
* The cooperative-scheduling semantics of `async_update` is modelled as one
  function of the device state, a flag saying whether `bus.send` succeeded,
  and the list of frames the `can.Notifier` delivers to
  `on_can_message_received` while the coroutine is parked in
  `asyncio.wait_for(self._event_update.wait(), 0.5)`.  The observable
  intermediate states (the suspension points: the two `asyncio.sleep(.01)`
  calls and the bounded wait) are recorded in a trace; the `async with
  self._lock` block holds the bus lock for exactly the body and releases it
  on every exit, and the `finally` clause clears `_awaiting_update` on every
  exit (success, `TimeoutError` from `wait_for`, or an exception raised by
  `bus.send`).
-/

namespace DobissCAN

/-- A CAN frame as used by the integration: `can.Message(arbitration_id, data)`.
The payload is a list of byte values. -/
structure Message where
  arbitration_id : Nat
  data : List Nat
  deriving DecidableEq, Repr

/-- The state of one `DobissLight` entity: the configuration unpacked in
`__init__` (name, module, relay), the precomputed frame ids and payloads
(`_set_id`, `_bytes_off`, `_bytes_on`, `_bytes_status`), the cached light
state `_is_on`, the `_awaiting_update` flag and the `_event_update`
`asyncio.Event` (modelled by its set/unset boolean). -/
structure DobissLight where
  name : String
  module : Nat
  relay : Nat
  set_id : Nat
  bytes_off : List Nat
  bytes_on : List Nat
  bytes_status : List Nat
  is_on : Bool
  awaiting_update : Bool
  event_update : Bool
  deriving DecidableEq, Repr

/-- `DobissLight.__init__`: unpack the config values, precompute the fixed
ids and payloads, and start with the light off, not awaiting an update, and
the update event unset.  (Python's `bytes(...)` constructor additionally
requires every entry to be < 256; theorems about constructible devices carry
that bound as a hypothesis.) -/
def DobissLight.init (name : String) (module relay : Nat) : DobissLight where
  name := name
  module := module
  relay := relay
  set_id := 0x01FC0002 ||| (module <<< 8)
  bytes_off := [module, relay, 0, 0xFF, 0xFF]
  bytes_on := [module, relay, 1, 0xFF, 0xFF]
  bytes_status := [module, relay]
  is_on := false
  awaiting_update := false
  event_update := false

/-- `DobissLight.on_can_message_received`: the two independent checks run in
order.  A set-acknowledgement (`0x0002FF01`) whose first two payload bytes
match this device's module and relay updates `is_on` from the third byte; a
query-reply (`0x01FDFF01`) received while `_awaiting_update` is set updates
`is_on` from the first byte and sets the `_event_update` event. -/
def on_can_message_received (d : DobissLight) (msg : Message) : DobissLight :=
  let d1 :=
    if msg.arbitration_id = 0x0002FF01 ∧ msg.data.get? 0 = some d.module ∧
        msg.data.get? 1 = some d.relay then
      { d with is_on := decide (msg.data.get? 2 = some 1) }
    else d
  if msg.arbitration_id = 0x01FDFF01 ∧ d1.awaiting_update = true then
    { d1 with is_on := decide (msg.data.get? 0 = some 1), event_update := true }
  else d1

/-- `DobissLight.async_turn_on`: sends the precomputed ON command frame and
returns; the device state is untouched.  `sendOk = false` models
`bus.send` raising (send fault / send timeout), in which case no frame is
transmitted and the exception propagates — still with no state mutation. -/
def async_turn_on (d : DobissLight) (sendOk : Bool) : DobissLight × Option Message :=
  (d, if sendOk then some ⟨d.set_id, d.bytes_on⟩ else none)

/-- `DobissLight.async_turn_off`: as `async_turn_on` with the OFF payload. -/
def async_turn_off (d : DobissLight) (sendOk : Bool) : DobissLight × Option Message :=
  (d, if sendOk then some ⟨d.set_id, d.bytes_off⟩ else none)

/-- The `can.Notifier` fan-out: every inbound frame passing the receive
filter is delivered to every entity's `on_can_message_received`. -/
def notifier_deliver (devs : List DobissLight) (msg : Message) : List DobissLight :=
  devs.map (fun d => on_can_message_received d msg)

/-- `await asyncio.wait_for(self._event_update.wait(), 0.5)`.  If the event
is already set the wait returns at once (the code never calls
`self._event_update.clear()`, so this includes an event left set by an
earlier cycle).  Otherwise each frame the notifier delivers during the wait
runs `on_can_message_received`; the wait returns as soon as the event is
set.  Returns the device state after the dispatched frames and whether the
wait completed (`false` = `TimeoutError` after 0.5 s). -/
def wait_for_event : DobissLight → List Message → DobissLight × Bool
  | d, [] => (d, d.event_update)
  | d, msg :: rest =>
    if d.event_update then (d, true)
    else wait_for_event (on_can_message_received d msg) rest

/-- How a `refresh()` (`async_update`) cycle ends: normally, with
`asyncio.TimeoutError` raised by `wait_for`, or with an exception raised by
`bus.send`. -/
inductive RefreshExit
  | ok
  | timedOut
  | sendFault
  deriving DecidableEq, Repr

/-- A device-observable state at a suspension point inside `async_update`:
whether the shared bus lock is held and the value of `_awaiting_update`. -/
structure ObsState where
  lockHeld : Bool
  awaiting : Bool
  deriving DecidableEq, Repr

/-- The outcome of one `async_update` cycle: the final device state, the
frames sent on the bus, how the cycle exited, whether the `async with
self._lock` block released the lock, and the trace of observable states at
the cycle's suspension points. -/
structure RefreshResult where
  dev : DobissLight
  sent : List Message
  exit : RefreshExit
  lockReleased : Bool
  trace : List ObsState
  deriving DecidableEq, Repr

/-- `DobissLight.async_update`: under the shared bus lock, set
`_awaiting_update`, sleep, send the GET query `⟨0x01FCFF01, bytes_status⟩`,
wait (bounded) on `_event_update`, sleep, and in the `finally` clause clear
`_awaiting_update` on every exit.  `sendOk = false` models `bus.send`
raising before any frame leaves; `frames` are the frames delivered by the
notifier during the bounded wait.  The `async with` block releases the lock
on every exit path. -/
def async_update (d : DobissLight) (sendOk : Bool) (frames : List Message) : RefreshResult :=
  let d1 := { d with awaiting_update := true }
  let s1 : ObsState := ⟨true, d1.awaiting_update⟩
  if sendOk then
    let query : Message := ⟨0x01FCFF01, d1.bytes_status⟩
    let r := wait_for_event d1 frames
    let s2 : ObsState := ⟨true, r.1.awaiting_update⟩
    if r.2 then
      let s3 : ObsState := ⟨true, r.1.awaiting_update⟩
      { dev := { r.1 with awaiting_update := false }, sent := [query],
        exit := RefreshExit.ok, lockReleased := true, trace := [s1, s2, s3] }
    else
      { dev := { r.1 with awaiting_update := false }, sent := [query],
        exit := RefreshExit.timedOut, lockReleased := true, trace := [s1, s2] }
  else
    { dev := { d1 with awaiting_update := false }, sent := [],
      exit := RefreshExit.sendFault, lockReleased := true, trace := [s1] }

/-! ### Helper lemmas -/

/-- `on_can_message_received` never touches the `_awaiting_update` flag:
only `async_update` writes it. -/
theorem awaiting_update_on_can_message_received (d : DobissLight) (msg : Message) :
    (on_can_message_received d msg).awaiting_update = d.awaiting_update := by
  unfold on_can_message_received
  dsimp only
  split <;> split <;> rfl

/-- The bounded wait only dispatches frames to `on_can_message_received`,
so it never changes the `_awaiting_update` flag. -/
theorem wait_for_event_awaiting_update (frames : List Message) (d : DobissLight) :
    (wait_for_event d frames).1.awaiting_update = d.awaiting_update := by
  induction frames generalizing d with
  | nil => rfl
  | cons msg rest ih =>
    unfold wait_for_event
    split
    · rfl
    · rw [ih, awaiting_update_on_can_message_received]

/-- Pointwise effect of a set-acknowledgement frame: a device updates its
cached state from the third payload byte exactly when the first two payload
bytes are its own (module, relay) pair, and is untouched otherwise. -/
theorem on_can_message_received_set_ack (d : DobissLight) (m r s : Nat) (rest : List Nat) :
    on_can_message_received d ⟨0x0002FF01, m :: r :: s :: rest⟩ =
      if d.module = m ∧ d.relay = r then { d with is_on := decide (s = 1) } else d := by
  unfold on_can_message_received
  dsimp only
  norm_num
  split
  · next h =>
    rw [if_pos]
    exact ⟨h.1.symm, h.2.symm⟩
  · next h =>
    rw [if_neg]
    intro hc
    exact h ⟨hc.1.symm, hc.2.symm⟩

/-- Pointwise drop of a query-reply frame by a device that is not awaiting
an update: the device state is completely unchanged. -/
theorem on_can_message_received_query_reply_dropped (d : DobissLight) (msg : Message)
    (hid : msg.arbitration_id = 0x01FDFF01)
    (hA : d.awaiting_update = false) :
    on_can_message_received d msg = d := by
  unfold on_can_message_received
  dsimp only
  have h1 : ¬(msg.arbitration_id = 0x0002FF01 ∧ msg.data.get? 0 = some d.module ∧
      msg.data.get? 1 = some d.relay) := by
    rintro ⟨h, -⟩
    rw [hid] at h
    norm_num at h
  rw [if_neg h1, if_neg]
  rintro ⟨-, h2⟩
  rw [hA] at h2
  exact Bool.false_ne_true h2

/-- The `finally` clause of `async_update` clears `_awaiting_update` on
every exit path: normal return, `TimeoutError`, and a `bus.send` fault. -/
theorem async_update_clears_awaiting (d : DobissLight) (sendOk : Bool) (frames : List Message) :
    (async_update d sendOk frames).dev.awaiting_update = false := by
  cases sendOk with
  | false => rfl
  | true =>
    by_cases h2 : (wait_for_event { d with awaiting_update := true } frames).2 = true
    · simp [async_update, h2]
    · simp [async_update, h2]

/-- The `async with self._lock` block of `async_update` releases the bus
lock on every exit path. -/
theorem async_update_releases_lock (d : DobissLight) (sendOk : Bool) (frames : List Message) :
    (async_update d sendOk frames).lockReleased = true := by
  cases sendOk with
  | false => rfl
  | true =>
    by_cases h2 : (wait_for_event { d with awaiting_update := true } frames).2 = true
    · simp [async_update, h2]
    · simp [async_update, h2]

/-- At every suspension point inside `async_update` the bus lock is held
and `_awaiting_update` is set. -/
theorem async_update_trace (d : DobissLight) (sendOk : Bool) (frames : List Message) :
    ∀ s ∈ (async_update d sendOk frames).trace, s.lockHeld = true ∧ s.awaiting = true := by
  have hw : (wait_for_event { d with awaiting_update := true } frames).1.awaiting_update
      = true := wait_for_event_awaiting_update frames { d with awaiting_update := true }
  intro s hs
  cases sendOk with
  | false =>
    simp only [async_update] at hs
    norm_num at hs
    subst hs
    exact ⟨rfl, rfl⟩
  | true =>
    by_cases h2 : (wait_for_event { d with awaiting_update := true } frames).2 = true
    · simp [async_update, h2, hw] at hs
      rcases hs with rfl | rfl | rfl <;> exact ⟨rfl, rfl⟩
    · simp [async_update, h2, hw] at hs
      rcases hs with rfl | rfl <;> exact ⟨rfl, rfl⟩

/-! ### Claim theorems -/

/-- C10: a newly constructed device starts with the cached state `is_on`
false, the `awaiting_update` flag false, and the wait event unset — the
IDLE state with an off reading, regardless of the physical relay. -/
theorem C10_initial_device_state (name : String) (module relay : Nat) :
    (DobissLight.init name module relay).is_on = false ∧
    (DobissLight.init name module relay).awaiting_update = false ∧
    (DobissLight.init name module relay).event_update = false :=
  ⟨rfl, rfl, rfl⟩

/-- C8: `turn_on()` and `turn_off()` leave the cached `is_on` state and the
`awaiting_update` flag untouched, on the successful send path
(`sendOk = true`) and on the send-fault path (`sendOk = false`) alike. -/
theorem C8_turn_commands_do_not_mutate_state (d : DobissLight) (sendOk : Bool) :
    (async_turn_on d sendOk).1.is_on = d.is_on ∧
    (async_turn_on d sendOk).1.awaiting_update = d.awaiting_update ∧
    (async_turn_off d sendOk).1.is_on = d.is_on ∧
    (async_turn_off d sendOk).1.awaiting_update = d.awaiting_update :=
  ⟨rfl, rfl, rfl, rfl⟩

/-- C5: for a device configured with (module, relay), `turn_on` / `turn_off`
send `⟨0x01FC0002 ||| (module <<< 8), [module, relay, state, 0xFF, 0xFF]⟩`
and the `refresh` query is `⟨0x01FCFF01, [module, relay]⟩`, bit-exactly as
the protocol table specifies. -/
theorem C5_command_and_query_encoding (name : String) (module relay : Nat)
    (hm : module < 256) (hr : relay < 256) :
    (DobissLight.init name module relay).set_id = 0x01FC0002 ||| (module <<< 8) ∧
    (async_turn_on (DobissLight.init name module relay) true).2 =
      some ⟨0x01FC0002 ||| (module <<< 8), [module, relay, 1, 0xFF, 0xFF]⟩ ∧
    (async_turn_off (DobissLight.init name module relay) true).2 =
      some ⟨0x01FC0002 ||| (module <<< 8), [module, relay, 0, 0xFF, 0xFF]⟩ ∧
    ∀ frames, (async_update (DobissLight.init name module relay) true frames).sent =
      [⟨0x01FCFF01, [module, relay]⟩] := by
  refine ⟨rfl, rfl, rfl, fun frames => ?_⟩
  unfold async_update
  dsimp only
  rw [if_pos rfl]
  split <;> rfl

/-- Witness for C5 at the configuration (module, relay) = (1, 0). -/
theorem C5_command_and_query_encoding_witness :
    (1 : Nat) < 256 ∧ (0 : Nat) < 256 ∧
    ((DobissLight.init "WC" 1 0).set_id = 0x01FC0002 ||| (1 <<< 8) ∧
     (async_turn_on (DobissLight.init "WC" 1 0) true).2 =
       some ⟨0x01FC0002 ||| (1 <<< 8), [1, 0, 1, 0xFF, 0xFF]⟩ ∧
     (async_turn_off (DobissLight.init "WC" 1 0) true).2 =
       some ⟨0x01FC0002 ||| (1 <<< 8), [1, 0, 0, 0xFF, 0xFF]⟩ ∧
     ∀ frames, (async_update (DobissLight.init "WC" 1 0) true frames).sent =
       [⟨0x01FCFF01, [1, 0]⟩]) :=
  ⟨by norm_num, by norm_num,
   C5_command_and_query_encoding "WC" 1 0 (by norm_num) (by norm_num)⟩

/-- C4: a device whose `awaiting_update` flag is set reacts to a query-reply
frame (address `0x01FDFF01`) by updating its cached state from the payload's
first byte and setting the wait event. -/
theorem C4_query_reply_updates_awaiting_device (d : DobissLight) (b : Nat) (rest : List Nat)
    (h : d.awaiting_update = true) :
    (on_can_message_received d ⟨0x01FDFF01, b :: rest⟩).is_on = decide (b = 1) ∧
    (on_can_message_received d ⟨0x01FDFF01, b :: rest⟩).event_update = true := by
  have h1 : ¬((0x01FDFF01 : Nat) = 0x0002FF01 ∧ (b :: rest).get? 0 = some d.module ∧
      (b :: rest).get? 1 = some d.relay) := by
    rintro ⟨hc, -⟩
    norm_num at hc
  simp only [on_can_message_received]
  rw [if_neg h1, if_pos ⟨trivial, h⟩]
  constructor
  · simp
  · rfl

/-- Witness for C4: a device awaiting an update receives the query-reply
`⟨0x01FDFF01, [1]⟩` and turns on with the event set. -/
theorem C4_query_reply_updates_awaiting_device_witness :
    ({ DobissLight.init "WC" 1 0 with awaiting_update := true } : DobissLight).awaiting_update
        = true ∧
    ((on_can_message_received { DobissLight.init "WC" 1 0 with awaiting_update := true }
        ⟨0x01FDFF01, 1 :: []⟩).is_on = decide ((1 : Nat) = 1) ∧
     (on_can_message_received { DobissLight.init "WC" 1 0 with awaiting_update := true }
        ⟨0x01FDFF01, 1 :: []⟩).event_update = true) :=
  ⟨rfl, C4_query_reply_updates_awaiting_device _ 1 [] rfl⟩

/-- C2: `_awaiting_update` is true exactly while the device sits inside the
locked `refresh()` body (at every suspension point of `async_update` the
lock is held and the flag is set), it is false immediately after
`async_update` returns on every exit path (success, timeout, send fault),
and no other operation (`on_can_message_received`, `turn_on`, `turn_off`)
ever changes the flag. -/
theorem C2_awaiting_reply_iff_inside_refresh (d : DobissLight) (sendOk : Bool)
    (frames : List Message) (msg : Message) :
    (∀ s ∈ (async_update d sendOk frames).trace, s.lockHeld = true ∧ s.awaiting = true) ∧
    (async_update d sendOk frames).dev.awaiting_update = false ∧
    (async_update d sendOk frames).lockReleased = true ∧
    (on_can_message_received d msg).awaiting_update = d.awaiting_update ∧
    (async_turn_on d sendOk).1.awaiting_update = d.awaiting_update ∧
    (async_turn_off d sendOk).1.awaiting_update = d.awaiting_update :=
  ⟨async_update_trace d sendOk frames, async_update_clears_awaiting d sendOk frames,
   async_update_releases_lock d sendOk frames,
   awaiting_update_on_can_message_received d msg, rfl, rfl⟩

/-- C6: a set-acknowledgement frame `⟨0x0002FF01, m :: r :: s :: rest⟩`
delivered to a set of devices updates the cached state, from the payload's
third byte, of exactly the devices configured with (module, relay) = (m, r)
and leaves every other device unchanged. -/
theorem C6_set_ack_updates_exactly_matching_devices (devs : List DobissLight)
    (m r s : Nat) (rest : List Nat) :
    notifier_deliver devs ⟨0x0002FF01, m :: r :: s :: rest⟩ =
      devs.map (fun d =>
        if d.module = m ∧ d.relay = r then { d with is_on := decide (s = 1) } else d) :=
  List.map_congr_left fun d _ => on_can_message_received_set_ack d m r s rest

/-- C7: a query-reply frame (address `0x01FDFF01`) delivered while no
device in the set is awaiting a reply is dropped by every device: the whole
device list — cached states and wait events included — is unchanged. -/
theorem C7_query_reply_dropped_when_no_device_awaiting (devs : List DobissLight)
    (msg : Message) (hid : msg.arbitration_id = 0x01FDFF01)
    (hall : ∀ d ∈ devs, d.awaiting_update = false) :
    notifier_deliver devs msg = devs := by
  unfold notifier_deliver
  calc devs.map (fun d => on_can_message_received d msg)
      = devs.map id := List.map_congr_left fun d hd =>
        on_can_message_received_query_reply_dropped d msg hid (hall d hd)
    _ = devs := List.map_id devs

/-- Witness for C7: one idle device drops the query-reply `⟨0x01FDFF01, [1]⟩`. -/
theorem C7_query_reply_dropped_witness :
    ((⟨0x01FDFF01, [1]⟩ : Message).arbitration_id = 0x01FDFF01 ∧
     ∀ d ∈ [DobissLight.init "WC" 1 0], d.awaiting_update = false) ∧
    notifier_deliver [DobissLight.init "WC" 1 0] ⟨0x01FDFF01, [1]⟩ =
      [DobissLight.init "WC" 1 0] :=
  ⟨⟨rfl, by decide⟩,
   C7_query_reply_dropped_when_no_device_awaiting [DobissLight.init "WC" 1 0]
     ⟨0x01FDFF01, [1]⟩ rfl (by decide)⟩

/-- C9: round-trip — `turn_on()` followed by delivery of the matching
set-acknowledgement `[module, relay, 1, …]` yields `is_on = true`, and
`turn_off()` followed by `[module, relay, 0, …]` yields `is_on = false`. -/
theorem C9_round_trip_turn_then_ack (d : DobissLight) (rest : List Nat) :
    (on_can_message_received (async_turn_on d true).1
        ⟨0x0002FF01, d.module :: d.relay :: 1 :: rest⟩).is_on = true ∧
    (on_can_message_received (async_turn_off d true).1
        ⟨0x0002FF01, d.module :: d.relay :: 0 :: rest⟩).is_on = false := by
  constructor
  · rw [show (async_turn_on d true).1 = d from rfl,
      on_can_message_received_set_ack d d.module d.relay 1 rest, if_pos ⟨rfl, rfl⟩]
    rfl
  · rw [show (async_turn_off d true).1 = d from rfl,
      on_can_message_received_set_ack d d.module d.relay 0 rest, if_pos ⟨rfl, rfl⟩]
    rfl

/-- C1 (code bug evidence): the code never calls
`self._event_update.clear()`, so after one `refresh()` cycle that received
a query-reply the wait event is still set at the start of the next cycle,
and that next cycle's bounded wait completes (exit `ok`) even though no
query-reply frame is received during it — contradicting "the wait signal is
reset before reuse". -/
theorem C1_wait_event_not_reset_between_cycles :
    (async_update (DobissLight.init "WC" 1 0) true [⟨0x01FDFF01, [1]⟩]).dev.event_update
        = true ∧
    (async_update
        (async_update (DobissLight.init "WC" 1 0) true [⟨0x01FDFF01, [1]⟩]).dev
        true []).exit = RefreshExit.ok :=
  ⟨rfl, rfl⟩

/-- C3 (code bug evidence): on a fresh device a `refresh()` with no reply
does time out with cached state unchanged, `_awaiting_update` cleared and
the lock released; but after one successful cycle the stale wait event makes
a reply-less `refresh()` exit `ok` instead of surfacing the timeout
failure. -/
theorem C3_timeout_path_defeated_by_stale_event :
    ((async_update (DobissLight.init "WC" 1 0) true []).exit = RefreshExit.timedOut ∧
     (async_update (DobissLight.init "WC" 1 0) true []).dev.is_on =
       (DobissLight.init "WC" 1 0).is_on ∧
     (async_update (DobissLight.init "WC" 1 0) true []).dev.awaiting_update = false ∧
     (async_update (DobissLight.init "WC" 1 0) true []).lockReleased = true) ∧
    (async_update
        (async_update (DobissLight.init "WC" 1 0) true [⟨0x01FDFF01, [1]⟩]).dev
        true []).exit = RefreshExit.ok :=
  ⟨⟨rfl, rfl, rfl, rfl⟩, rfl⟩

end DobissCAN
